import Mathlib

/-!
Shallow embedding of the Papri frontend controller logic
(`frontend/static/js/papriapp.js`, refined version, and
`frontend/static/js/index.js`) together with proofs about the
task-polling, result-fetching, notification and demo-trial behaviour.

The browser runtime is modelled explicitly: `setInterval` / `setTimeout`
allocate fresh timer identifiers into lists of live timers held in a
`World` record, `clearInterval` / `clearTimeout` remove them, and the
Alpine.js component state is a plain record.  Asynchronous callbacks are
split into a synchronous start phase (what runs before the `await fetch`)
and a resolve phase (the continuation that runs when the response or a
network error arrives), so interleavings of cancellation with in-flight
requests can be examined faithfully.
-/

namespace Papri

/-- JavaScript `String.prototype.trim()`: drop whitespace from both
ends.  (Lean's built-in `String.trim` is defined by well-founded
recursion and does not reduce in the kernel, so the embedding uses this
computable list-based equivalent.) -/
def jsTrim (s : String) : String :=
  String.mk (((s.data.dropWhile Char.isWhitespace).reverse.dropWhile
    Char.isWhitespace).reverse)

/-- JavaScript `s.substring(0, n)`: the first `n` characters. -/
def jsTake (s : String) (n : Nat) : String :=
  String.mk (s.data.take n)

/-- JavaScript `a || b` on a possibly-absent string: `null`/`undefined`
and the empty string are falsy. -/
def jsOrStr (a : Option String) (b : String) : String :=
  match a with
  | none => b
  | some s => if s = "" then b else s

/-- JavaScript `a || b` on a possibly-absent number: `null`/`undefined`
and `0` are falsy. -/
def jsOrNat (a : Option Nat) (b : Nat) : Nat :=
  match a with
  | none => b
  | some n => if n = 0 then b else n

/-- The `globalNotification` object of the `papriApp` Alpine component
(papriapp.js, refined version, lines 604-609). -/
structure NotifState where
  visible : Bool
  message : String
  type : String
  timeoutInstance : Option Nat
deriving Repr, DecidableEq

/-- One invocation of `showGlobalNotification(message, type, duration)`.
The default arguments of the source (`type = 'info'`, `duration = 4000`)
are filled in by callers of the embedding. -/
structure NotifCall where
  message : String
  type : String
  duration : Nat
deriving Repr, DecidableEq

/-- The search-view slice of the `papriApp` component state
(papriapp.js, refined version, lines 577-586).  Result records are
opaque to every claim, so items are represented by `Nat`. -/
structure SearchState where
  searchLoading : Bool
  searchStatusMessage : String
  searchErrorMessage : Bool
  searchResults : List Nat
  searchCurrentTaskId : Option Nat
  searchPollingInterval : Option Nat
  searchTotalResults : Nat
  searchTotalPages : Nat
  searchCurrentPage : Nat
  searchAttempted : Bool
deriving Repr, DecidableEq

/-- `editorVideoSource` object (papriapp.js, refined version, line 594).
A `File` object is represented by its name. -/
structure EditorVideoSource where
  title : String
  original_url : Option String
  video_source_id : Option Nat
  uploaded_name : Option String
  file_object : Option String
deriving Repr, DecidableEq

/-- The editor-view slice of the `papriApp` component state
(papriapp.js, refined version, lines 594-601). -/
structure EditorState where
  editorVideoSource : Option EditorVideoSource
  editorPrompt : String
  editorLoading : Bool
  editorStatusMessage : String
  editorErrorMessage : Bool
  editedVideoUrl : Option String
  editorProjectId : Option Nat
deriving Repr, DecidableEq

/-- A live `setInterval` timer: its id, the task id captured by the
callback closure, and the period passed to `setInterval`. -/
structure IntervalTimer where
  id : Nat
  taskId : Nat
  periodMs : Nat
deriving Repr, DecidableEq

/-- The browser world: component state plus the host's live timers and
in-flight status requests.  `searchTimers` are intervals created by
`startPollingSearchStatus`, `editTimers` by `pollEditStatus`,
`notifTimers` are pending notification-dismiss timeouts paired with
their fire time.  `inflightStatus` records search status requests that
have been issued but whose response has not yet been handled, keyed by
the issuing timer id and the captured task id. -/
structure World where
  now : Nat
  nextTimer : Nat
  searchTimers : List IntervalTimer
  editTimers : List IntervalTimer
  notifTimers : List (Nat × Nat)
  st : SearchState
  ed : EditorState
  notif : NotifState
  inflightStatus : List (Nat × Nat)
deriving Repr, DecidableEq

/-- The component state as first created by Alpine (papriapp.js, refined
version, lines 555-609), in an empty browser world. -/
def initialWorld : World :=
  { now := 0
    nextTimer := 0
    searchTimers := []
    editTimers := []
    notifTimers := []
    st :=
      { searchLoading := false
        searchStatusMessage := ""
        searchErrorMessage := false
        searchResults := []
        searchCurrentTaskId := none
        searchPollingInterval := none
        searchTotalResults := 0
        searchTotalPages := 0
        searchCurrentPage := 1
        searchAttempted := false }
    ed :=
      { editorVideoSource := none
        editorPrompt := ""
        editorLoading := false
        editorStatusMessage := ""
        editorErrorMessage := false
        editedVideoUrl := none
        editorProjectId := none }
    notif :=
      { visible := false
        message := ""
        type := "info"
        timeoutInstance := none }
    inflightStatus := [] }

/-- `showGlobalNotification(message, type = 'info', duration = 4000)`
(papriapp.js, refined version, lines 1062-1072): set the slot's message,
type and visibility, clear any pending dismissal timeout, then schedule
a fresh dismissal `duration` ms from now. -/
def showGlobalNotification (w : World) (message : String) (type : String)
    (duration : Nat) : World :=
  let remaining :=
    match w.notif.timeoutInstance with
    | some t => w.notifTimers.filter (fun p => p.1 ≠ t)
    | none => w.notifTimers
  { w with
      notif :=
        { visible := true
          message := message
          type := type
          timeoutInstance := some w.nextTimer }
      notifTimers := remaining ++ [(w.nextTimer, w.now + duration)]
      nextTimer := w.nextTimer + 1 }

/-- Apply a list of recorded `showGlobalNotification` calls in order. -/
def applyNotifCalls : World → List NotifCall → World
  | w, [] => w
  | w, c :: rest =>
      applyNotifCalls (showGlobalNotification w c.message c.type c.duration) rest

/-- Run a timed sequence of notification calls: each entry advances the
clock by its first component, then performs the call. -/
def runNotifSeq (w : World) : List (Nat × NotifCall) → World
  | [] => w
  | (gap, c) :: rest =>
      runNotifSeq
        (showGlobalNotification { w with now := w.now + gap } c.message c.type c.duration)
        rest

/-- Well-formedness of the notification slot: the pending dismissal
timeouts are exactly the one referenced by `timeoutInstance` (if any),
and all live timer ids are below the allocation counter. -/
def notifWF (w : World) : Prop :=
  (∀ p ∈ w.notifTimers, p.1 < w.nextTimer) ∧
    (match w.notif.timeoutInstance with
     | none => w.notifTimers = []
     | some t => ∃ ft, w.notifTimers = [(t, ft)])

/-!  ## Demo-trial logic (`frontend/static/js/index.js`) -/

/-- The `papriDemo` Alpine component state (index.js, lines 4-14).  The
trial counter is an integer because it is re-loaded with `parseInt` from
`localStorage`, which can hold any (possibly negative) value.  `storage`
models the `papriDemoTrialsLeft` key of `localStorage`. -/
structure DemoState where
  trialSearchesLeft : Int
  trialBlocked : Bool
  queryText : String
  queryImage : Option String
  demoResults : List Nat
  demoLoading : Bool
  demoError : Bool
  demoStatusMessage : String
  storage : Option Int
deriving Repr, DecidableEq

/-- `checkTrialStatus()` (index.js, lines 55-62): a non-positive counter
blocks the demo and is clamped to exactly 0; a positive counter
unblocks it. -/
def checkTrialStatus (s : DemoState) : DemoState :=
  if s.trialSearchesLeft ≤ 0 then
    { s with trialBlocked := true, trialSearchesLeft := 0 }
  else
    { s with trialBlocked := false }

/-- `useTrial()` (index.js, lines 64-77): decrement and persist the
counter only when it is strictly positive and the demo is not blocked,
re-checking the status either way; surface the limit message when the
re-check leaves the demo blocked.  Returns whether a trial was used. -/
def useTrial (s : DemoState) : DemoState × Bool :=
  if 0 < s.trialSearchesLeft ∧ s.trialBlocked = false then
    let s1 := { s with trialSearchesLeft := s.trialSearchesLeft - 1 }
    let s2 := { s1 with storage := some s1.trialSearchesLeft }
    (checkTrialStatus s2, true)
  else
    let s1 := checkTrialStatus s
    if s1.trialBlocked then
      ({ s1 with
          demoStatusMessage := "Demo search limit reached. Please sign up for full access."
          demoError := true }, false)
    else
      (s1, false)

/-- `init()` (index.js, lines 46-53): load the stored trial counter, if
present, then check the trial status. -/
def demoInit (s : DemoState) : DemoState :=
  let s1 :=
    match s.storage with
    | some n => { s with trialSearchesLeft := n }
    | none => s
  checkTrialStatus s1

/-- `performDemoSearch()` up to the point where the simulated search is
scheduled (index.js, lines 121-152).  Returns the new state and whether
the search body was actually reached (i.e. `useTrial` succeeded and the
input validation passed); the `setTimeout` mock-result continuation is
not needed by any claim. -/
def performDemoSearch (s : DemoState) : DemoState × Bool :=
  let used := useTrial s
  if used.2 = false then
    (used.1, false)
  else
    let s1 := used.1
    if jsTrim s1.queryText = "" ∧ s1.queryImage = none then
      ({ s1 with
          demoStatusMessage := "Please enter a text query or select an image for custom search."
          demoError := true }, false)
    else
      ({ s1 with
          demoLoading := true
          demoResults := []
          demoError := false
          demoStatusMessage := "Performing your custom demo search..." }, true)

/-!  ## Status polling (`startPollingSearchStatus`, papriapp.js refined, lines 736-774) -/

/-- The parsed JSON body of a `GET /search/status/{id}/` response
together with the HTTP outcome the handler inspects. -/
structure StatusResponse where
  ok : Bool
  httpStatus : Nat
  status : Option String
  error_message : Option String
  error : Option String
deriving Repr, DecidableEq

/-- What the awaited `fetch` of a polling tick produced: a parsed
response, or a thrown network/parse error with its message. -/
inductive PollOutcome where
  | response (d : StatusResponse)
  | netError (m : String)
deriving Repr, DecidableEq

/-- Effects of one polling-tick body: whether it called
`clearInterval(this.searchPollingInterval)`, the `fetchResultsPage`
calls it made as (page, taskId) pairs, and the `data.status` value it
accepted from a successful response (`none` when the tick failed before
reading it). -/
structure PollFx where
  clearField : Bool
  fetches : List (Nat × Nat)
  statusSeen : Option String
deriving Repr, DecidableEq

/-- The response-handling part of the `startPollingSearchStatus` tick
callback (papriapp.js refined, lines 742-772): everything after the
`await fetch` resumes, including the `catch` block.  Returns the new
component search state, the effects, and the `showGlobalNotification`
calls made, in order. -/
def searchPollBody (st : SearchState) (taskId : Nat) (out : PollOutcome) :
    SearchState × PollFx × List NotifCall :=
  match out with
  | PollOutcome.netError m =>
      ({ st with
          searchStatusMessage := "Error polling status: " ++ m
          searchErrorMessage := true },
       { clearField := false, fetches := [], statusSeen := none },
       [⟨"Error fetching search status. Will keep trying.", "warning", 2000⟩])
  | PollOutcome.response d =>
      if d.ok = false then
        let m := jsOrStr d.error
          ("Status check failed (HTTP " ++ toString d.httpStatus ++ ")")
        ({ st with
            searchStatusMessage := "Error polling status: " ++ m
            searchErrorMessage := true },
         { clearField := false, fetches := [], statusSeen := none },
         [⟨"Error fetching search status. Will keep trying.", "warning", 2000⟩])
      else
        let st1 := { st with
          searchStatusMessage :=
            "ðŸ“Š Status: " ++ jsOrStr d.status "Unknown" ++ ". " ++
              jsOrStr d.error_message "" }
        if d.status = some "completed" ∨ d.status = some "partial_results" then
          ({ st1 with
              searchLoading := false
              searchStatusMessage :=
                "âœ… Search " ++ (d.status.getD "") ++ ". Fetching results..." },
           { clearField := true, fetches := [(1, taskId)], statusSeen := d.status },
           [⟨"Search processing complete. Fetching results!", "success", 2000⟩])
        else if d.status = some "failed" then
          ({ st1 with
              searchLoading := false
              searchStatusMessage :=
                "âŒ Search failed: " ++ jsOrStr d.error_message "Unknown error"
              searchErrorMessage := true },
           { clearField := true, fetches := [], statusSeen := d.status },
           [⟨"Search task failed: " ++ jsOrStr d.error_message "Unknown error",
             "error", 4000⟩])
        else
          ({ st1 with
              searchStatusMessage :=
                "â³ Status: " ++ jsOrStr d.status "Processing" ++ "... " ++
                  jsOrStr d.error_message "" },
           { clearField := false, fetches := [], statusSeen := d.status },
           [])

/-- `clearInterval(this.searchPollingInterval)`: remove the timer whose
id is currently stored in the component field (a no-op when the field
is null, as in JavaScript). -/
def clearSearchInterval (w : World) : World :=
  match w.st.searchPollingInterval with
  | some t => { w with searchTimers := w.searchTimers.filter (fun x => x.id ≠ t) }
  | none => w

/-- `startPollingSearchStatus(taskId)` (papriapp.js refined, lines
736-774): create a `setInterval` timer with period 3500 ms whose
callback captures `taskId`, and store its handle in
`this.searchPollingInterval`.  Returns the created timer. -/
def startPollingSearchStatus (w : World) (taskId : Nat) : World × IntervalTimer :=
  let t : IntervalTimer := { id := w.nextTimer, taskId := taskId, periodMs := 3500 }
  ({ w with
      nextTimer := w.nextTimer + 1
      searchTimers := w.searchTimers ++ [t]
      st := { w.st with searchPollingInterval := some t.id } }, t)

/-- `pollEditStatus(editTaskId)` (papriapp.js refined, lines 1001-1039):
create a `setInterval` timer with period 5000 ms whose callback
captures `editTaskId`.  The handle is kept only in a local `const`; no
component field records it and no prior edit timer is cleared. -/
def pollEditStatus (w : World) (editTaskId : Nat) : World × IntervalTimer :=
  let t : IntervalTimer := { id := w.nextTimer, taskId := editTaskId, periodMs := 5000 }
  ({ w with
      nextTimer := w.nextTimer + 1
      editTimers := w.editTimers ++ [t] }, t)

/-- The synchronous start of one `startPollingSearchStatus` tick, up to
the `await fetch` (papriapp.js refined, lines 737-743): if
`this.searchCurrentTaskId` is null, clear the interval stored in the
component field and return without issuing a request; otherwise issue
the status request, which becomes in-flight.  Returns whether a request
was issued. -/
def searchPollTickStart (w : World) (timerId taskId : Nat) : World × Bool :=
  if w.st.searchCurrentTaskId = none then
    (clearSearchInterval w, false)
  else
    ({ w with inflightStatus := w.inflightStatus ++ [(timerId, taskId)] }, true)

/-- The continuation of a polling tick once its in-flight status request
settles: run the response-handling body on the current component state,
clear the interval currently stored in `this.searchPollingInterval` if
the body called `clearInterval`, and apply the notification calls.
JavaScript runs this continuation even if the tick's own interval was
cancelled while the request was in flight. -/
def searchPollResolve (w : World) (timerId taskId : Nat) (out : PollOutcome) :
    World × PollFx :=
  let r := searchPollBody w.st taskId out
  let w1 := { w with
    st := r.1
    inflightStatus := w.inflightStatus.filter (fun p => p ≠ (timerId, taskId)) }
  let w2 := if r.2.1.clearField then clearSearchInterval w1 else w1
  (applyNotifCalls w2 r.2.2, r.2.1)

/-!  ## Search initiation (`initiateNewSearchTask`, papriapp.js refined, lines 682-734) -/

/-- The search form slice the submit handler reads (papriapp.js refined,
lines 563-576).  The image `File` object is represented by its name;
filters do not influence any claim's control flow and are carried
opaquely as the list of active (key, value) pairs. -/
structure SearchForm where
  query_text : String
  query_image : Option String
  query_video_url : String
deriving Repr, DecidableEq

/-- Outcome of the awaited `POST /search/initiate/` request:
`accepted id` models `response.status === 202 && data.id` with a truthy
id; `rejected` carries the HTTP status and the `error` / `detail`
fields of the body; `netError` a thrown fetch/parse error. -/
inductive InitiateOutcome where
  | accepted (id : Nat)
  | rejected (httpStatus : Nat) (error : Option String) (detail : Option String)
  | netError (m : String)
deriving Repr, DecidableEq

/-- Effects of `initiateNewSearchTask`: whether the network request was
issued, and the poll timer started on acceptance, if any. -/
structure InitiateFx where
  networkCalled : Bool
  startedTimer : Option IntervalTimer
deriving Repr, DecidableEq

/-- The shared failure tail of `initiateNewSearchTask`'s `catch` block
(papriapp.js refined, lines 727-733). -/
def initiateSearchCatch (w : World) (m : String) : World × InitiateFx :=
  let w3 := { w with st := { w.st with
    searchStatusMessage := "Error: " ++ m
    searchErrorMessage := true
    searchLoading := false } }
  (showGlobalNotification w3 ("Search initiation failed: " ++ m) "error" 4000,
   { networkCalled := true, startedTimer := none })

/-- `initiateNewSearchTask()` (papriapp.js refined, lines 682-734).
Validation: when the trimmed text query is empty, no image file is
selected and the trimmed video URL is empty, surface an error
notification and return without touching any other state and without a
network call.  Otherwise reset the search state, null the current task
id, clear any stored polling interval, issue the request, and on a 202
acceptance record the task id and start the status poll loop. -/
def initiateNewSearchTask (w : World) (form : SearchForm)
    (out : InitiateOutcome) : World × InitiateFx :=
  if jsTrim form.query_text = "" ∧ form.query_image = none ∧
      jsTrim form.query_video_url = "" then
    (showGlobalNotification w
      "Please provide a text query, an image, or a video URL." "error" 4000,
     { networkCalled := false, startedTimer := none })
  else
    let w1 := { w with st := { w.st with
      searchLoading := true
      searchAttempted := true
      searchStatusMessage := "ðŸš€ Initiating search... please wait."
      searchErrorMessage := false
      searchResults := []
      searchCurrentTaskId := none } }
    let w2 := clearSearchInterval w1
    match out with
    | InitiateOutcome.accepted id =>
        let w3 := { w2 with st := { w2.st with
          searchCurrentTaskId := some id
          searchStatusMessage :=
            "ðŸ” Search task started (ID: " ++ toString id ++
              "). Polling for updates..." } }
        let w4 := showGlobalNotification w3
          "Search initiated! We\x27ll notify you of progress." "info" 2500
        let ws := startPollingSearchStatus w4 id
        (ws.1, { networkCalled := true, startedTimer := some ws.2 })
    | InitiateOutcome.rejected httpStatus error detail =>
        initiateSearchCatch w2 (jsOrStr error (jsOrStr detail
          ("Failed to initiate search (status " ++ toString httpStatus ++ ")")))
    | InitiateOutcome.netError m =>
        initiateSearchCatch w2 m

/-!  ## Result fetching (`fetchResultsPage`, papriapp.js refined, lines 776-815) -/

/-- The parsed JSON body of a `GET /search/results/{id}/?page=N`
response together with the HTTP outcome the handler inspects.  Result
records are opaque to every claim and represented by `Nat`. -/
structure ResultsResponse where
  ok : Bool
  httpStatus : Nat
  results_data : Option (List Nat)
  count : Option Nat
  num_pages : Option Nat
  current_page : Option Nat
  error : Option String
deriving Repr, DecidableEq

/-- What the awaited results `fetch` produced. -/
inductive ResultsOutcome where
  | response (d : ResultsResponse)
  | netError (m : String)
deriving Repr, DecidableEq

/-- The shared `catch` / `finally` tail of `fetchResultsPage`
(papriapp.js refined, lines 807-814). -/
def fetchResultsCatch (st : SearchState) (m : String) :
    SearchState × List NotifCall :=
  ({ st with
      searchStatusMessage := "Error fetching results: " ++ m
      searchErrorMessage := true
      searchLoading := false },
   [⟨"Failed to fetch results: " ++ m, "error", 4000⟩])

/-- The body of `fetchResultsPage(pageNumber, taskId)` after the
current-task guard (papriapp.js refined, lines 783-814): mark loading,
then on a successful response replace the result page wholesale and
report either loaded results or, when a search was attempted, the
no-results outcome; on any failure surface a fetch error.  The
`finally` clause always clears `searchLoading`.  Returns the new search
state and the notification calls made. -/
def fetchResultsApply (st : SearchState) (pageNumber : Nat)
    (out : ResultsOutcome) : SearchState × List NotifCall :=
  let st1 := { st with
    searchLoading := true
    searchStatusMessage :=
      "ðŸ“„ Fetching results page " ++ toString pageNumber ++ "..."
    searchErrorMessage := false }
  match out with
  | ResultsOutcome.netError m => fetchResultsCatch st1 m
  | ResultsOutcome.response d =>
      if d.ok = false then
        fetchResultsCatch st1 (jsOrStr d.error
          ("Failed to fetch results (HTTP " ++ toString d.httpStatus ++ ")"))
      else
        let st2 := { st1 with
          searchResults := d.results_data.getD []
          searchTotalResults := jsOrNat d.count 0
          searchTotalPages := jsOrNat d.num_pages 0
          searchCurrentPage := jsOrNat d.current_page 1 }
        if 0 < st2.searchResults.length then
          ({ st2 with
              searchStatusMessage :=
                "Displaying " ++ toString st2.searchResults.length ++ " of " ++
                  toString st2.searchTotalResults ++ " results. (Page " ++
                  toString st2.searchCurrentPage ++ "/" ++
                  toString st2.searchTotalPages ++ ")"
              searchLoading := false },
           [⟨"Page " ++ toString st2.searchCurrentPage ++ " loaded.",
             "success", 1500⟩])
        else if st2.searchAttempted then
          ({ st2 with
              searchStatusMessage :=
                "No results found for your query matching the criteria."
              searchLoading := false },
           [⟨"No results found for this query.", "info", 4000⟩])
        else
          ({ st2 with searchLoading := false }, [])

/-!  ## Edit initiation (`initiateVideoEdit`, papriapp.js refined, lines 927-999) -/

/-- JavaScript truthiness of a possibly-absent number (`0` is falsy). -/
def jsTruthyOptNat (o : Option Nat) : Bool :=
  match o with
  | none => false
  | some n => n ≠ 0

/-- Outcome of one of the two awaited editor POST requests.  On
failure, the message assembled from the response body (papriapp.js
refined, lines 964-969 and 989) is carried as the thrown message. -/
inductive EditPostOutcome where
  | created (id : Nat)
  | failed (m : String)
deriving Repr, DecidableEq

/-- Effects of `initiateVideoEdit`: the edit poll timer started on
success, if any. -/
structure EditFx where
  pollStarted : Option IntervalTimer
deriving Repr, DecidableEq

/-- The `catch` block of `initiateVideoEdit` (papriapp.js refined,
lines 992-998). -/
def initiateEditCatch (w : World) (m : String) : World × EditFx :=
  let w1 := { w with ed := { w.ed with
    editorStatusMessage := "Error: " ++ m
    editorErrorMessage := true
    editorLoading := false } }
  (showGlobalNotification w1 ("Edit initiation failed: " ++ m) "error" 4000,
   { pollStarted := none })

/-- `initiateVideoEdit()` (papriapp.js refined, lines 927-999):
validate the selected video source and the prompt, create the edit
project, submit the edit task under it, and on success start
`pollEditStatus` for the returned task id.  No prior edit poll loop is
cleared anywhere on this path. -/
def initiateVideoEdit (w : World) (projOut taskOut : EditPostOutcome) :
    World × EditFx :=
  match w.ed.editorVideoSource with
  | none =>
      (showGlobalNotification w
        "Please select or upload a video for editing." "error" 4000,
       { pollStarted := none })
  | some src =>
      if src.file_object = none ∧ jsTruthyOptNat src.video_source_id = false then
        (showGlobalNotification w
          "Please select or upload a video for editing." "error" 4000,
         { pollStarted := none })
      else if jsTrim w.ed.editorPrompt = "" then
        (showGlobalNotification w
          "Please provide editing instructions (prompt)." "error" 4000,
         { pollStarted := none })
      else
        let w1 := { w with ed := { w.ed with
          editorLoading := true
          editorStatusMessage := "ðŸš€ Initiating video edit project..."
          editorErrorMessage := false
          editedVideoUrl := none } }
        let nameChoice : Option String :=
          if jsTruthyOptNat src.video_source_id ∧ src.title ≠ "" then
            some ("Edit of " ++ jsTake src.title 50)
          else if src.file_object ≠ none then
            some ("Edit of uploaded " ++ jsTake (src.uploaded_name.getD "") 50)
          else
            none
        match nameChoice with
        | none =>
            initiateEditCatch w1 "No valid video source details for creating edit project."
        | some projectName =>
          match projOut with
          | EditPostOutcome.failed m => initiateEditCatch w1 m
          | EditPostOutcome.created pid =>
              let w2 := { w1 with ed := { w1.ed with
                editorProjectId := some pid
                editorStatusMessage :=
                  "ðŸ“ Edit project \x27" ++ projectName ++ "\x27 created (ID: " ++
                    toString pid ++ "). Submitting edit task..." } }
              let w3 := showGlobalNotification w2
                "Edit project created. Submitting task..." "info" 1500
              match taskOut with
              | EditPostOutcome.failed m => initiateEditCatch w3 m
              | EditPostOutcome.created tid =>
                  let w4 := { w3 with ed := { w3.ed with
                    editorStatusMessage :=
                      "ðŸŽžï¸ Edit task submitted (ID: " ++ toString tid ++
                        "). Processing video... this may take a while." } }
                  let w5 := showGlobalNotification w4
                    "Edit task submitted! Processing video..." "info" 4000
                  let wp := pollEditStatus w5 tid
                  (wp.1, { pollStarted := some wp.2 })

/-!  ## Shared lemmas -/

/-- `showGlobalNotification` touches only the notification slot, the
pending notification timeouts and the timer-allocation counter. -/
theorem showGlobalNotification_frame (w : World) (m t : String) (d : Nat) :
    (showGlobalNotification w m t d).searchTimers = w.searchTimers ∧
    (showGlobalNotification w m t d).editTimers = w.editTimers ∧
    (showGlobalNotification w m t d).st = w.st ∧
    (showGlobalNotification w m t d).ed = w.ed ∧
    (showGlobalNotification w m t d).inflightStatus = w.inflightStatus ∧
    (showGlobalNotification w m t d).now = w.now := by
  refine ⟨rfl, rfl, rfl, rfl, rfl, rfl⟩

/-- Folding notification calls also touches only those components. -/
theorem applyNotifCalls_frame (cs : List NotifCall) (w : World) :
    (applyNotifCalls w cs).searchTimers = w.searchTimers ∧
    (applyNotifCalls w cs).editTimers = w.editTimers ∧
    (applyNotifCalls w cs).st = w.st ∧
    (applyNotifCalls w cs).inflightStatus = w.inflightStatus := by
  induction cs generalizing w with
  | nil => exact ⟨rfl, rfl, rfl, rfl⟩
  | cons c rest ih =>
      simpa [applyNotifCalls, showGlobalNotification] using
        ih (showGlobalNotification w c.message c.type c.duration)

/-- Coherence of the search poll-loop bookkeeping: the live search
interval timers are exactly the one recorded in
`this.searchPollingInterval` (or none when the field is null). -/
def searchLoopCoherent (w : World) : Prop :=
  w.searchTimers.map IntervalTimer.id = w.st.searchPollingInterval.toList

/-- Clearing the stored interval in a coherent world leaves no live
search timer. -/
theorem clearSearchInterval_of_coherent (w : World) (h : searchLoopCoherent w) :
    (clearSearchInterval w).searchTimers = [] := by
  unfold searchLoopCoherent at h
  unfold clearSearchInterval
  cases hf : w.st.searchPollingInterval with
  | none =>
      rw [hf] at h
      simpa using h
  | some t =>
      rw [hf] at h
      cases hs : w.searchTimers with
      | nil => simp
      | cons x xs =>
          rw [hs] at h
          cases xs with
          | nil =>
              simp only [List.map, Option.toList, List.cons.injEq, and_true] at h
              simp [List.filter, h]
          | cons y ys => simp [Option.toList] at h

/-- `clearInterval` touches only the live search timers. -/
theorem clearSearchInterval_st (w : World) : (clearSearchInterval w).st = w.st := by
  unfold clearSearchInterval
  cases w.st.searchPollingInterval <;> rfl

/-- `clearInterval` leaves the notification slot alone. -/
theorem clearSearchInterval_notif (w : World) :
    (clearSearchInterval w).notif = w.notif := by
  unfold clearSearchInterval
  cases w.st.searchPollingInterval <;> rfl

/-- `clearInterval` does not advance the timer-allocation counter. -/
theorem clearSearchInterval_nextTimer (w : World) :
    (clearSearchInterval w).nextTimer = w.nextTimer := by
  unfold clearSearchInterval
  cases w.st.searchPollingInterval <;> rfl

/-- `clearInterval` leaves the pending notification timeouts alone. -/
theorem clearSearchInterval_notifTimers (w : World) :
    (clearSearchInterval w).notifTimers = w.notifTimers := by
  unfold clearSearchInterval
  cases w.st.searchPollingInterval <;> rfl

/-- `clearInterval` leaves the clock and the edit timers alone. -/
theorem clearSearchInterval_misc (w : World) :
    (clearSearchInterval w).now = w.now ∧
    (clearSearchInterval w).editTimers = w.editTimers ∧
    (clearSearchInterval w).inflightStatus = w.inflightStatus := by
  unfold clearSearchInterval
  cases w.st.searchPollingInterval <;> exact ⟨rfl, rfl, rfl⟩

/-- The tick body never writes `searchPollingInterval` or
`searchCurrentTaskId`. -/
theorem searchPollBody_frame (st : SearchState) (taskId : Nat) (out : PollOutcome) :
    (searchPollBody st taskId out).1.searchPollingInterval = st.searchPollingInterval ∧
    (searchPollBody st taskId out).1.searchCurrentTaskId = st.searchCurrentTaskId := by
  cases out with
  | netError m => exact ⟨rfl, rfl⟩
  | response d =>
      simp only [searchPollBody]
      split_ifs <;> exact ⟨rfl, rfl⟩

/-!  ## Claims -/

/-- C7: The status poll loop created by `startPollingSearchStatus`
passes 3500 ms to `setInterval`, and the one created by
`pollEditStatus` passes 5000 ms: the search poller runs on a fixed
3.5-second period and the edit poller on a fixed 5-second period. -/
theorem poll_loop_periods (w : World) (taskId editTaskId : Nat) :
    (startPollingSearchStatus w taskId).2.periodMs = 3500 ∧
    (pollEditStatus w editTaskId).2.periodMs = 5000 :=
  ⟨rfl, rfl⟩

/-- C10: the demo-trial counter is never driven negative and the
blocked flag agrees with the counter after every status check.
`checkTrialStatus` clamps any non-positive counter to exactly 0 while
setting the blocked flag and leaves the counter and an unblocked flag
for positive values; after it runs, blocked holds iff the counter is 0.
`useTrial` decrements (and persists) the counter exactly when it is
strictly positive and the demo is not blocked, and otherwise leaves the
counter as the status check does.  A blocked session never reaches the
body of `performDemoSearch`. -/
theorem trial_counter_invariants :
    (∀ s : DemoState,
        ((checkTrialStatus s).trialBlocked = true ↔
          (checkTrialStatus s).trialSearchesLeft = 0)) ∧
    (∀ s : DemoState, s.trialSearchesLeft ≤ 0 →
        (checkTrialStatus s).trialSearchesLeft = 0 ∧
          (checkTrialStatus s).trialBlocked = true) ∧
    (∀ s : DemoState, 0 ≤ (checkTrialStatus s).trialSearchesLeft) ∧
    (∀ s : DemoState, 0 ≤ s.trialSearchesLeft →
        0 ≤ (useTrial s).1.trialSearchesLeft) ∧
    (∀ s : DemoState, 0 < s.trialSearchesLeft → s.trialBlocked = false →
        (useTrial s).1.trialSearchesLeft = s.trialSearchesLeft - 1 ∧
          (useTrial s).2 = true) ∧
    (∀ s : DemoState, ¬(0 < s.trialSearchesLeft ∧ s.trialBlocked = false) →
        (useTrial s).1.trialSearchesLeft = (checkTrialStatus s).trialSearchesLeft ∧
          (useTrial s).2 = false) ∧
    (∀ s : DemoState, s.trialBlocked = true → (performDemoSearch s).2 = false) := by
  refine ⟨?_, ?_, ?_, ?_, ?_, ?_, ?_⟩
  · intro s
    unfold checkTrialStatus
    split
    · simp
    · simp only [Bool.false_eq_true, false_iff]
      omega
  · intro s h
    unfold checkTrialStatus
    split
    · exact ⟨rfl, rfl⟩
    · omega
  · intro s
    unfold checkTrialStatus
    split
    · simp
    · simp only []
      omega
  · intro s h
    simp only [useTrial, checkTrialStatus]
    split_ifs <;> simp_all
    omega
  · intro s hpos hblk
    simp only [useTrial, checkTrialStatus]
    split_ifs <;> simp_all
    omega
  · intro s h
    simp only [useTrial, checkTrialStatus]
    split_ifs <;> simp_all
  · intro s hblk
    simp only [performDemoSearch, useTrial, checkTrialStatus]
    split_ifs <;> simp_all

/-- C2: a poll response whose `status` is `completed` or
`partial_results` stops the poll loop — `clearInterval` is called on
the stored handle, leaving no live search timer, so the loop never
fires again — and issues exactly one result fetch, for page 1 of the
same task identifier. -/
theorem poll_terminal_stops_and_fetches_page_one
    (w : World) (timerId taskId : Nat) (d : StatusResponse)
    (hcoh : searchLoopCoherent w) (hok : d.ok = true)
    (hst : d.status = some "completed" ∨ d.status = some "partial_results") :
    (searchPollResolve w timerId taskId (PollOutcome.response d)).2.clearField = true ∧
    (searchPollResolve w timerId taskId (PollOutcome.response d)).1.searchTimers = [] ∧
    (searchPollResolve w timerId taskId (PollOutcome.response d)).2.fetches = [(1, taskId)] := by
  have hfx : (searchPollBody w.st taskId (PollOutcome.response d)).2.1 =
      { clearField := true, fetches := [(1, taskId)], statusSeen := d.status } := by
    rcases hst with h | h <;> simp [searchPollBody, hok, h]
  refine ⟨?_, ?_, ?_⟩
  · show (searchPollBody w.st taskId (PollOutcome.response d)).2.1.clearField = true
    rw [hfx]
  · unfold searchPollResolve
    dsimp only
    rw [(applyNotifCalls_frame _ _).1, hfx]
    dsimp only
    rw [if_pos rfl]
    apply clearSearchInterval_of_coherent
    unfold searchLoopCoherent at hcoh ⊢
    dsimp only
    rw [(searchPollBody_frame _ _ _).1]
    exact hcoh
  · show (searchPollBody w.st taskId (PollOutcome.response d)).2.1.fetches = [(1, taskId)]
    rw [hfx]

/-- A coherent world with one live search poll loop for task 1. -/
def pollingWorldExample : World :=
  (startPollingSearchStatus
    { initialWorld with st :=
        { initialWorld.st with searchCurrentTaskId := some 1, searchLoading := true } }
    1).1

/-- A completed status response. -/
def completedRespExample : StatusResponse :=
  { ok := true, httpStatus := 200, status := some "completed"
    error_message := none, error := none }

/-- Witness for `poll_terminal_stops_and_fetches_page_one` at a
concrete polling world. -/
theorem poll_terminal_stops_and_fetches_page_one_witness :
    (searchPollResolve pollingWorldExample 0 1
        (PollOutcome.response completedRespExample)).2.clearField = true ∧
    (searchPollResolve pollingWorldExample 0 1
        (PollOutcome.response completedRespExample)).1.searchTimers = [] ∧
    (searchPollResolve pollingWorldExample 0 1
        (PollOutcome.response completedRespExample)).2.fetches = [(1, 1)] :=
  poll_terminal_stops_and_fetches_page_one pollingWorldExample 0 1
    completedRespExample (by rfl) rfl (Or.inl rfl)

/-- C3: a transient failure of a polling tick — the status request
throws, or returns non-ok — does not stop the loop (no `clearInterval`,
the live timers are untouched, so a later tick still occurs), issues no
result fetch, accepts no status value from the response (the task's
status is untouched, in particular `searchLoading` and the current task
id keep their values), and surfaces exactly one warning notification. -/
theorem poll_transient_error_continues
    (w : World) (timerId taskId : Nat) (out : PollOutcome)
    (hfail : ∀ d, out = PollOutcome.response d → d.ok = false) :
    (searchPollResolve w timerId taskId out).2.clearField = false ∧
    (searchPollResolve w timerId taskId out).1.searchTimers = w.searchTimers ∧
    (searchPollResolve w timerId taskId out).2.fetches = [] ∧
    (searchPollResolve w timerId taskId out).2.statusSeen = none ∧
    (searchPollResolve w timerId taskId out).1.st.searchCurrentTaskId =
      w.st.searchCurrentTaskId ∧
    (searchPollResolve w timerId taskId out).1.st.searchLoading =
      w.st.searchLoading ∧
    (searchPollBody w.st taskId out).2.2 =
      [⟨"Error fetching search status. Will keep trying.", "warning", 2000⟩] := by
  cases out with
  | netError m =>
      exact ⟨rfl, rfl, rfl, rfl, rfl, rfl, rfl⟩
  | response d =>
      have hok := hfail d rfl
      refine ⟨?_, ?_, ?_, ?_, ?_, ?_, ?_⟩ <;>
        simp [searchPollResolve, searchPollBody, hok, applyNotifCalls,
          showGlobalNotification]

/-- Witness for `poll_transient_error_continues`: a thrown fetch error
at the concrete polling world. -/
theorem poll_transient_error_continues_witness :
    (searchPollResolve pollingWorldExample 0 1
        (PollOutcome.netError "TypeError: Failed to fetch")).2.clearField = false ∧
    (searchPollResolve pollingWorldExample 0 1
        (PollOutcome.netError "TypeError: Failed to fetch")).1.searchTimers =
      pollingWorldExample.searchTimers ∧
    (searchPollResolve pollingWorldExample 0 1
        (PollOutcome.netError "TypeError: Failed to fetch")).2.fetches = [] ∧
    (searchPollResolve pollingWorldExample 0 1
        (PollOutcome.netError "TypeError: Failed to fetch")).2.statusSeen = none ∧
    (searchPollResolve pollingWorldExample 0 1
        (PollOutcome.netError "TypeError: Failed to fetch")).1.st.searchCurrentTaskId =
      pollingWorldExample.st.searchCurrentTaskId ∧
    (searchPollResolve pollingWorldExample 0 1
        (PollOutcome.netError "TypeError: Failed to fetch")).1.st.searchLoading =
      pollingWorldExample.st.searchLoading ∧
    (searchPollBody pollingWorldExample.st 1
        (PollOutcome.netError "TypeError: Failed to fetch")).2.2 =
      [⟨"Error fetching search status. Will keep trying.", "warning", 2000⟩] :=
  poll_transient_error_continues pollingWorldExample 0 1
    (PollOutcome.netError "TypeError: Failed to fetch")
    (fun d h => by cases h)

/-- C4: a poll response with status `failed` stops the loop (no live
search timer remains, so no further tick can ever run), triggers no
result fetch, and surfaces the failure: the view's error flag is set
and an error notification is shown. -/
theorem poll_failed_stops_without_fetch
    (w : World) (timerId taskId : Nat) (d : StatusResponse)
    (hcoh : searchLoopCoherent w) (hok : d.ok = true)
    (hst : d.status = some "failed") :
    (searchPollResolve w timerId taskId (PollOutcome.response d)).2.clearField = true ∧
    (searchPollResolve w timerId taskId (PollOutcome.response d)).1.searchTimers = [] ∧
    (searchPollResolve w timerId taskId (PollOutcome.response d)).2.fetches = [] ∧
    (searchPollResolve w timerId taskId (PollOutcome.response d)).1.st.searchErrorMessage =
      true ∧
    (searchPollResolve w timerId taskId (PollOutcome.response d)).1.notif.visible = true ∧
    (searchPollResolve w timerId taskId (PollOutcome.response d)).1.notif.type = "error" := by
  have hfx : (searchPollBody w.st taskId (PollOutcome.response d)).2.1 =
      { clearField := true, fetches := [], statusSeen := d.status } := by
    simp [searchPollBody, hok, hst]
  refine ⟨?_, ?_, ?_, ?_, ?_, ?_⟩
  · show (searchPollBody w.st taskId (PollOutcome.response d)).2.1.clearField = true
    rw [hfx]
  · unfold searchPollResolve
    dsimp only
    rw [(applyNotifCalls_frame _ _).1, hfx]
    dsimp only
    rw [if_pos rfl]
    apply clearSearchInterval_of_coherent
    unfold searchLoopCoherent at hcoh ⊢
    dsimp only
    rw [(searchPollBody_frame _ _ _).1]
    exact hcoh
  · show (searchPollBody w.st taskId (PollOutcome.response d)).2.1.fetches = []
    rw [hfx]
  · simp [searchPollResolve, searchPollBody, hok, hst, applyNotifCalls,
      showGlobalNotification, clearSearchInterval_st]
  · simp [searchPollResolve, searchPollBody, hok, hst, applyNotifCalls,
      showGlobalNotification, clearSearchInterval_st]
  · simp [searchPollResolve, searchPollBody, hok, hst, applyNotifCalls,
      showGlobalNotification, clearSearchInterval_st]

/-- A failed status response. -/
def failedRespExample : StatusResponse :=
  { ok := true, httpStatus := 200, status := some "failed"
    error_message := some "worker crashed", error := none }

/-- Witness for `poll_failed_stops_without_fetch` at a concrete polling
world. -/
theorem poll_failed_stops_without_fetch_witness :
    (searchPollResolve pollingWorldExample 0 1
        (PollOutcome.response failedRespExample)).2.clearField = true ∧
    (searchPollResolve pollingWorldExample 0 1
        (PollOutcome.response failedRespExample)).1.searchTimers = [] ∧
    (searchPollResolve pollingWorldExample 0 1
        (PollOutcome.response failedRespExample)).2.fetches = [] ∧
    (searchPollResolve pollingWorldExample 0 1
        (PollOutcome.response failedRespExample)).1.st.searchErrorMessage = true ∧
    (searchPollResolve pollingWorldExample 0 1
        (PollOutcome.response failedRespExample)).1.notif.visible = true ∧
    (searchPollResolve pollingWorldExample 0 1
        (PollOutcome.response failedRespExample)).1.notif.type = "error" :=
  poll_failed_stops_without_fetch pollingWorldExample 0 1 failedRespExample
    (by rfl) rfl rfl

/-- C5: a payload whose text query trims to empty, with no image file
and a video URL that trims to empty, fails validation: an error
notification is surfaced, no network call is made, no poll timer is
started, and the component state and timers are otherwise untouched. -/
theorem empty_payload_validation_no_network
    (w : World) (form : SearchForm) (out : InitiateOutcome)
    (ht : jsTrim form.query_text = "") (hi : form.query_image = none)
    (hu : jsTrim form.query_video_url = "") :
    (initiateNewSearchTask w form out).2.networkCalled = false ∧
    (initiateNewSearchTask w form out).2.startedTimer = none ∧
    (initiateNewSearchTask w form out).1.st = w.st ∧
    (initiateNewSearchTask w form out).1.searchTimers = w.searchTimers ∧
    (initiateNewSearchTask w form out).1.editTimers = w.editTimers ∧
    (initiateNewSearchTask w form out).1.notif.visible = true ∧
    (initiateNewSearchTask w form out).1.notif.type = "error" ∧
    (initiateNewSearchTask w form out).1.notif.message =
      "Please provide a text query, an image, or a video URL." := by
  refine ⟨?_, ?_, ?_, ?_, ?_, ?_, ?_, ?_⟩ <;>
    simp [initiateNewSearchTask, ht, hi, hu, showGlobalNotification]

/-- A search form with only whitespace input. -/
def blankFormExample : SearchForm :=
  { query_text := "   ", query_image := none, query_video_url := " " }

/-- Witness for `empty_payload_validation_no_network` at a blank form. -/
theorem empty_payload_validation_no_network_witness :
    (initiateNewSearchTask initialWorld blankFormExample
        (InitiateOutcome.accepted 9)).2.networkCalled = false ∧
    (initiateNewSearchTask initialWorld blankFormExample
        (InitiateOutcome.accepted 9)).2.startedTimer = none ∧
    (initiateNewSearchTask initialWorld blankFormExample
        (InitiateOutcome.accepted 9)).1.st = initialWorld.st ∧
    (initiateNewSearchTask initialWorld blankFormExample
        (InitiateOutcome.accepted 9)).1.searchTimers = initialWorld.searchTimers ∧
    (initiateNewSearchTask initialWorld blankFormExample
        (InitiateOutcome.accepted 9)).1.editTimers = initialWorld.editTimers ∧
    (initiateNewSearchTask initialWorld blankFormExample
        (InitiateOutcome.accepted 9)).1.notif.visible = true ∧
    (initiateNewSearchTask initialWorld blankFormExample
        (InitiateOutcome.accepted 9)).1.notif.type = "error" ∧
    (initiateNewSearchTask initialWorld blankFormExample
        (InitiateOutcome.accepted 9)).1.notif.message =
      "Please provide a text query, an image, or a video URL." :=
  empty_payload_validation_no_network initialWorld blankFormExample
    (InitiateOutcome.accepted 9) (by rfl) rfl (by rfl)

/-- C1 (amended, search kind): starting a new search task leaves at
most one live search poll loop — the prior loop's timer is cleared
before the request is issued, and on acceptance the freshly started
loop is the only live one, bound to the new task id.  (The edit kind
does not enjoy this property; see the counterexample.) -/
theorem search_kind_single_poll_loop
    (w : World) (form : SearchForm) (out : InitiateOutcome)
    (hcoh : searchLoopCoherent w) :
    (initiateNewSearchTask w form out).1.searchTimers.length ≤ 1 ∧
    (∀ id, out = InitiateOutcome.accepted id →
      ¬(jsTrim form.query_text = "" ∧ form.query_image = none ∧
        jsTrim form.query_video_url = "") →
      ∃ t, (initiateNewSearchTask w form out).2.startedTimer = some t ∧
        (initiateNewSearchTask w form out).1.searchTimers = [t] ∧
        t.taskId = id ∧ t.periodMs = 3500) := by
  have hlen : w.searchTimers.length ≤ 1 := by
    have h := congrArg List.length hcoh
    rw [List.length_map] at h
    rw [h]
    cases w.st.searchPollingInterval <;> simp [Option.toList]
  by_cases hv : jsTrim form.query_text = "" ∧ form.query_image = none ∧
      jsTrim form.query_video_url = ""
  · constructor
    · unfold initiateNewSearchTask
      rw [if_pos hv]
      exact hlen
    · intro id hid hval
      exact absurd hv hval
  · have hcl : (clearSearchInterval { w with st := { w.st with
        searchLoading := true
        searchAttempted := true
        searchStatusMessage := "ðŸš€ Initiating search... please wait."
        searchErrorMessage := false
        searchResults := []
        searchCurrentTaskId := none } }).searchTimers = [] := by
      apply clearSearchInterval_of_coherent
      exact hcoh
    constructor
    · unfold initiateNewSearchTask
      rw [if_neg hv]
      cases out with
      | accepted id =>
          simp [startPollingSearchStatus, showGlobalNotification,
            clearSearchInterval_nextTimer, hcl]
      | rejected s e dt =>
          simp [initiateSearchCatch, showGlobalNotification, clearSearchInterval_st,
            hcl]
      | netError m =>
          simp [initiateSearchCatch, showGlobalNotification, clearSearchInterval_st,
            hcl]
    · intro id hid hval
      subst hid
      unfold initiateNewSearchTask
      rw [if_neg hv]
      refine ⟨_, rfl, ?_, rfl, rfl⟩
      simp [startPollingSearchStatus, showGlobalNotification,
        clearSearchInterval_nextTimer, hcl]

/-- A search form with a non-blank text query. -/
def validFormExample : SearchForm :=
  { query_text := "cats", query_image := none, query_video_url := "" }

/-- Witness for `search_kind_single_poll_loop`: initiating a second
search over a live loop leaves exactly one live search timer, bound to
the new task. -/
theorem search_kind_single_poll_loop_witness :
    (initiateNewSearchTask pollingWorldExample validFormExample
        (InitiateOutcome.accepted 2)).1.searchTimers.length ≤ 1 ∧
    (∃ t, (initiateNewSearchTask pollingWorldExample validFormExample
        (InitiateOutcome.accepted 2)).2.startedTimer = some t ∧
      (initiateNewSearchTask pollingWorldExample validFormExample
        (InitiateOutcome.accepted 2)).1.searchTimers = [t] ∧
      t.taskId = 2 ∧ t.periodMs = 3500) := by
  have h := search_kind_single_poll_loop pollingWorldExample validFormExample
    (InitiateOutcome.accepted 2) (by rfl)
  exact ⟨h.1, h.2 2 rfl (by decide)⟩

/-- A world with a video selected in the editor and a prompt typed. -/
def editWorldExample : World :=
  { initialWorld with ed := { initialWorld.ed with
      editorVideoSource := some
        { title := "Clip"
          original_url := some "https://example.com/v"
          video_source_id := some 7
          uploaded_name := none
          file_object := none }
      editorPrompt := "trim the intro" } }

/-- C1 counterexample (edit kind): initiating a second video-edit task
while the first edit poll loop is live leaves TWO live edit poll
loops — `pollEditStatus` keeps its interval handle only in a local
constant and `initiateVideoEdit` never clears a prior edit interval, so
the prior loop's timer is not cancelled and more than one live poll
loop of the edit kind remains, contradicting the claim. -/
theorem edit_kind_double_poll_loop_cex :
    ((initiateVideoEdit
        (initiateVideoEdit editWorldExample
          (EditPostOutcome.created 1) (EditPostOutcome.created 11)).1
        (EditPostOutcome.created 2) (EditPostOutcome.created 22)).1).editTimers.length
      = 2 ∧
    ((initiateVideoEdit
        (initiateVideoEdit editWorldExample
          (EditPostOutcome.created 1) (EditPostOutcome.created 11)).1
        (EditPostOutcome.created 2) (EditPostOutcome.created 22)).1).editTimers.map
      IntervalTimer.taskId = [11, 22] := by
  exact ⟨rfl, rfl⟩

/-- C6 (amended): the stale-loop guard runs only at the start of a
tick, before the status request is issued, and it only checks that the
component's current task id is non-null: a tick that starts while
`searchCurrentTaskId` is null clears the stored interval and issues no
request, leaving the rest of the world unchanged.  (A response already
in flight when the loop is cancelled is NOT guarded; see the
counterexample.) -/
theorem stale_tick_guard_null_task
    (w : World) (timerId taskId : Nat)
    (h : w.st.searchCurrentTaskId = none) :
    (searchPollTickStart w timerId taskId).2 = false ∧
    (searchPollTickStart w timerId taskId).1 = clearSearchInterval w := by
  unfold searchPollTickStart
  rw [if_pos h]
  exact ⟨rfl, rfl⟩

/-- Witness for `stale_tick_guard_null_task` at the initial world. -/
theorem stale_tick_guard_null_task_witness :
    (searchPollTickStart initialWorld 0 1).2 = false ∧
    (searchPollTickStart initialWorld 0 1).1 = clearSearchInterval initialWorld :=
  stale_tick_guard_null_task initialWorld 0 1 rfl

/-- The world after submitting search task 1 (poll loop timer id 1). -/
def staleWorld1 : World :=
  (initiateNewSearchTask initialWorld validFormExample
    (InitiateOutcome.accepted 1)).1

/-- Task 1's tick has fired and its status request is in flight. -/
def staleWorld2 : World := (searchPollTickStart staleWorld1 1 1).1

/-- While that request is in flight, a second search (task 2) is
initiated; the old interval is cleared and a new loop (timer id 3) is
started for task 2. -/
def staleWorld3 : World :=
  (initiateNewSearchTask staleWorld2 validFormExample
    (InitiateOutcome.accepted 2)).1

/-- C6 counterexample: the stale response of task 1, arriving after its
loop was cancelled and task 2's loop went live, is NOT ignored — its
continuation passes no further guard, so it clears the interval
currently stored in the component field (killing task 2's live loop),
overwrites the status message, and fetches results for the stale
task 1, mutating the current task's UI state. -/
theorem stale_response_mutates_current_state_cex :
    staleWorld2.inflightStatus = [(1, 1)] ∧
    staleWorld3.st.searchCurrentTaskId = some 2 ∧
    staleWorld3.searchTimers.map IntervalTimer.id = [3] ∧
    (searchPollResolve staleWorld3 1 1
        (PollOutcome.response completedRespExample)).1.searchTimers = [] ∧
    (searchPollResolve staleWorld3 1 1
        (PollOutcome.response completedRespExample)).2.fetches = [(1, 1)] ∧
    (searchPollResolve staleWorld3 1 1
        (PollOutcome.response completedRespExample)).1.st.searchCurrentTaskId =
      some 2 ∧
    (searchPollResolve staleWorld3 1 1
        (PollOutcome.response completedRespExample)).1.st.searchStatusMessage =
      "âœ… Search completed. Fetching results..." := by
  exact ⟨rfl, rfl, rfl, rfl, rfl, rfl, rfl⟩

/-- One well-formed `showGlobalNotification` call replaces any pending
dismissal with a single fresh one scheduled `duration` ms from now, and
preserves well-formedness. -/
theorem showGlobalNotification_single_pending
    (w : World) (m t : String) (d : Nat) (h : notifWF w) :
    (showGlobalNotification w m t d).notifTimers = [(w.nextTimer, w.now + d)] ∧
    notifWF (showGlobalNotification w m t d) := by
  obtain ⟨hb, hm⟩ := h
  have hrem :
      (match w.notif.timeoutInstance with
       | some t0 => w.notifTimers.filter (fun p => p.1 ≠ t0)
       | none => w.notifTimers) = [] := by
    cases hti : w.notif.timeoutInstance with
    | none =>
        rw [hti] at hm
        simpa using hm
    | some t0 =>
        rw [hti] at hm
        obtain ⟨ft, hft⟩ := hm
        simp [hft]
  constructor
  · unfold showGlobalNotification
    dsimp only
    rw [hrem]
    rfl
  · constructor
    · intro p hp
      unfold showGlobalNotification at hp
      dsimp only at hp
      rw [hrem] at hp
      simp only [List.nil_append, List.mem_singleton] at hp
      subst hp
      exact Nat.lt_succ_self _
    · show (match (showGlobalNotification w m t d).notif.timeoutInstance with
        | none => (showGlobalNotification w m t d).notifTimers = []
        | some t0 => ∃ ft, (showGlobalNotification w m t d).notifTimers = [(t0, ft)])
      unfold showGlobalNotification
      dsimp only
      rw [hrem]
      exact ⟨w.now + d, rfl⟩

/-- C8: for any timed sequence of notification calls ending with some
call `c`, the single notification slot shows exactly `c`'s message and
type, and exactly one dismissal timeout is pending, scheduled
`c.duration` ms after the time of that last call — each call cancelled
its predecessor's pending dismissal before scheduling its own, so the
auto-dismiss clock is measured from the most recent call. -/
theorem notification_single_slot_last_wins
    (w : World) (pre : List (Nat × NotifCall)) (gap : Nat) (c : NotifCall)
    (hwf : notifWF w) :
    (runNotifSeq w (pre ++ [(gap, c)])).notif.visible = true ∧
    (runNotifSeq w (pre ++ [(gap, c)])).notif.message = c.message ∧
    (runNotifSeq w (pre ++ [(gap, c)])).notif.type = c.type ∧
    ∃ id, (runNotifSeq w (pre ++ [(gap, c)])).notifTimers =
      [(id, (runNotifSeq w (pre ++ [(gap, c)])).now + c.duration)] := by
  induction pre generalizing w with
  | nil =>
      obtain ⟨heq, _⟩ := showGlobalNotification_single_pending
        { w with now := w.now + gap } c.message c.type c.duration hwf
      exact ⟨rfl, rfl, rfl, ⟨w.nextTimer, heq⟩⟩
  | cons p rest ih =>
      obtain ⟨g0, c0⟩ := p
      obtain ⟨_, hwf'⟩ := showGlobalNotification_single_pending
        { w with now := w.now + g0 } c0.message c0.type c0.duration hwf
      exact ih _ hwf'

/-- Witness for `notification_single_slot_last_wins`: two rapid calls
leave only the second visible, with its dismissal 4000 ms after the
second call (at absolute time 100). -/
theorem notification_single_slot_last_wins_witness :
    (runNotifSeq initialWorld
        [(0, ⟨"first", "info", 4000⟩), (100, ⟨"second", "error", 4000⟩)]).notif.visible
      = true ∧
    (runNotifSeq initialWorld
        [(0, ⟨"first", "info", 4000⟩), (100, ⟨"second", "error", 4000⟩)]).notif.message
      = "second" ∧
    (runNotifSeq initialWorld
        [(0, ⟨"first", "info", 4000⟩), (100, ⟨"second", "error", 4000⟩)]).notif.type
      = "error" ∧
    ∃ id, (runNotifSeq initialWorld
        [(0, ⟨"first", "info", 4000⟩), (100, ⟨"second", "error", 4000⟩)]).notifTimers =
      [(id, (runNotifSeq initialWorld
        [(0, ⟨"first", "info", 4000⟩), (100, ⟨"second", "error", 4000⟩)]).now + 4000)] :=
  notification_single_slot_last_wins initialWorld [(0, ⟨"first", "info", 4000⟩)]
    100 ⟨"second", "error", 4000⟩ ⟨fun p hp => absurd hp (by simp [initialWorld]), rfl⟩

/-- C9: a results response with `results_data: []` and `count: 0` after
an attempted search produces the no-results state — the no-results
message is shown while the error flag stays false — which is distinct
from a fetch failure, which sets the error flag. -/
theorem empty_results_not_error
    (st : SearchState) (d : ResultsResponse) (m : String)
    (hatt : st.searchAttempted = true) (hok : d.ok = true)
    (hdata : d.results_data = some []) (hcount : d.count = some 0) :
    (fetchResultsApply st 1 (ResultsOutcome.response d)).1.searchErrorMessage = false ∧
    (fetchResultsApply st 1 (ResultsOutcome.response d)).1.searchResults = [] ∧
    (fetchResultsApply st 1 (ResultsOutcome.response d)).1.searchTotalResults = 0 ∧
    (fetchResultsApply st 1 (ResultsOutcome.response d)).1.searchStatusMessage =
      "No results found for your query matching the criteria." ∧
    (fetchResultsApply st 1 (ResultsOutcome.response d)).1.searchLoading = false ∧
    (fetchResultsApply st 1 (ResultsOutcome.response d)).2 =
      [⟨"No results found for this query.", "info", 4000⟩] ∧
    (fetchResultsApply st 1 (ResultsOutcome.netError m)).1.searchErrorMessage = true := by
  refine ⟨?_, ?_, ?_, ?_, ?_, ?_, ?_⟩ <;>
    simp [fetchResultsApply, fetchResultsCatch, hok, hdata, hcount, hatt, jsOrNat]

/-- An empty, successful results response. -/
def emptyResultsExample : ResultsResponse :=
  { ok := true, httpStatus := 200, results_data := some [], count := some 0
    num_pages := some 0, current_page := some 1, error := none }

/-- A search state in which a search was attempted. -/
def attemptedStateExample : SearchState :=
  { initialWorld.st with searchAttempted := true, searchCurrentTaskId := some 1 }

/-- Witness for `empty_results_not_error` at a concrete empty response. -/
theorem empty_results_not_error_witness :
    (fetchResultsApply attemptedStateExample 1
        (ResultsOutcome.response emptyResultsExample)).1.searchErrorMessage = false ∧
    (fetchResultsApply attemptedStateExample 1
        (ResultsOutcome.response emptyResultsExample)).1.searchResults = [] ∧
    (fetchResultsApply attemptedStateExample 1
        (ResultsOutcome.response emptyResultsExample)).1.searchTotalResults = 0 ∧
    (fetchResultsApply attemptedStateExample 1
        (ResultsOutcome.response emptyResultsExample)).1.searchStatusMessage =
      "No results found for your query matching the criteria." ∧
    (fetchResultsApply attemptedStateExample 1
        (ResultsOutcome.response emptyResultsExample)).1.searchLoading = false ∧
    (fetchResultsApply attemptedStateExample 1
        (ResultsOutcome.response emptyResultsExample)).2 =
      [⟨"No results found for this query.", "info", 4000⟩] ∧
    (fetchResultsApply attemptedStateExample 1
        (ResultsOutcome.netError "TypeError: Failed to fetch")).1.searchErrorMessage =
      true :=
  empty_results_not_error attemptedStateExample emptyResultsExample
    "TypeError: Failed to fetch" rfl rfl rfl rfl

/-- A reachable demo state: three trials left, not blocked. -/
def demoStateExample : DemoState :=
  { trialSearchesLeft := 3
    trialBlocked := false
    queryText := "cats"
    queryImage := none
    demoResults := []
    demoLoading := false
    demoError := false
    demoStatusMessage := ""
    storage := none }

/-- A blocked demo state, as produced by `checkTrialStatus` at 0. -/
def demoStateBlocked : DemoState :=
  { demoStateExample with trialSearchesLeft := 0, trialBlocked := true }

/-- Witness for `trial_counter_invariants` at concrete states. -/
theorem trial_counter_invariants_witness :
    (useTrial demoStateExample).1.trialSearchesLeft = 2 ∧
    (useTrial demoStateExample).2 = true ∧
    (checkTrialStatus { demoStateExample with trialSearchesLeft := -5 }).trialSearchesLeft = 0 ∧
    (performDemoSearch demoStateBlocked).2 = false := by
  have h := trial_counter_invariants
  refine ⟨?_, ?_, ?_, ?_⟩
  · exact (h.2.2.2.2.1 demoStateExample (by decide) (by decide)).1
  · exact (h.2.2.2.2.1 demoStateExample (by decide) (by decide)).2
  · exact (h.2.1 { demoStateExample with trialSearchesLeft := -5 } (by decide)).1
  · exact h.2.2.2.2.2.2 demoStateBlocked (by decide)

end Papri
